import Mathlib

/-!
# Verification of the IPython controller application bootstrap

A shallow embedding of `IPython/kernel/scripts/ipcontrollerapp.py`
(the `IPControllerApp` class): cluster-directory resolution
(`find_cluster_dir`), security/log directory provisioning
(`pre_construct`), the `reuse_furls` propagation step, logging setup
(`start_logging`) and the setup-statement hook (`import_statements`).

Python strings are `String`, booleans are `Bool`, permission bits are
`Nat` (octal literals), and calls that can raise return `Except`.
Filesystem state is a map from path to directory-existence and
permission bits.  `os.path.expandvars`/`expanduser` are modelled as an
opaque expansion function carried in the environment, since the claims
only depend on the expanded value.
-/

namespace IPControllerApp

/-- Python's `s.startswith('/')` on a path string. -/
def startswith_slash (p : String) : Bool :=
  match p.data with
  | [] => false
  | c :: _ => c == '/'

/-- Python's `s.endswith('/')` on a path string. -/
def endswith_slash (p : String) : Bool :=
  match p.data.getLast? with
  | none => false
  | some c => c == '/'

/-- POSIX `os.path.join` for two components: if the second is absolute it
wins; otherwise the parts are joined with a single separator. -/
def pathJoin (a b : String) : String :=
  if startswith_slash b then b
  else if a = "" ∨ endswith_slash a then a ++ b
  else a ++ "/" ++ b

/-- POSIX `os.path.isabs`: a path is absolute when it starts with `/`. -/
def isabs (p : String) : Bool :=
  startswith_slash p

/-- The process environment seen by `find_cluster_dir`:
`expand` is `os.path.expandvars ∘ os.path.expanduser`, `cwd` is
`os.getcwd()`, `isdir` is `os.path.isdir`, and `ipythondir` is the
application-data root `self.ipythondir`. -/
structure Env where
  expand : String → String
  cwd : String
  isdir : String → Bool
  ipythondir : String

/-- The command-line configuration layer's `Global` section.  A flag left
at `NoConfigDefault` is an absent attribute, so each key is an `Option`;
reading an absent key raises `AttributeError`, modelled by the `none`
case at each use site. -/
structure CmdLineGlobal where
  cluster_dir : Option String
  profile : Option String

/-- The default configuration layer's `Global` section, as populated by
`create_default_config` (every key is always present there). -/
structure DefaultGlobal where
  cluster_dir : String
  profile : String

/-- The `try: command_line ... except AttributeError: default ...` read
of `Global.cluster_dir` performed at the top of `find_cluster_dir`. -/
def read_cluster_dir (cl : CmdLineGlobal) (dc : DefaultGlobal) : String :=
  match cl.cluster_dir with
  | some s => s
  | none => dc.cluster_dir

/-- The `try: command_line ... except AttributeError: default ...` read
of `Global.profile` performed in the profile-fallback branch. -/
def read_profile (cl : CmdLineGlobal) (dc : DefaultGlobal) : String :=
  match cl.profile with
  | some p => p
  | none => dc.profile

/-- The outcome of `find_cluster_dir`: the resolved `self.cluster_dir`
together with both configuration layers after the write-back of the
resolved value. -/
structure ResolveResult where
  cluster_dir : String
  default_config : DefaultGlobal
  command_line_config : CmdLineGlobal

/-- `IPControllerApp.find_cluster_dir`: read `Global.cluster_dir` from
the command-line layer, else the default layer; expand it; if the result
is empty, fall back to `cluster_<profile>` under the current working
directory when that is a directory, else under `ipythondir`; finally
write the resolved value back into both layers. -/
def find_cluster_dir (env : Env) (cl : CmdLineGlobal) (dc : DefaultGlobal) :
    ResolveResult :=
  let cd0 := read_cluster_dir cl dc
  let cd1 := env.expand cd0
  let cd2 :=
    if cd1 = "" then
      let profile := read_profile cl dc
      let cluster_dir_name := "cluster_" ++ profile
      let try_this := pathJoin env.cwd cluster_dir_name
      if env.isdir try_this then try_this
      else pathJoin env.ipythondir cluster_dir_name
    else cd1
  { cluster_dir := cd2
    default_config := { dc with cluster_dir := cd2 }
    command_line_config := { cl with cluster_dir := some cd2 } }

/-- The file-based configuration layer's `Global` section (only its
`cluster_dir` key matters to the claims considered here). -/
structure FileGlobal where
  cluster_dir : Option String

/-- Modelled from the spec: the three-layer precedence
`cmdline > file > default` that the spec's configuration-key table
assigns to `Global.cluster_dir`.  Stated from the spec's words for
comparison with the source's `find_cluster_dir`, which takes no
file-based layer at all. -/
def read_cluster_dir_spec (cl : CmdLineGlobal) (fl : FileGlobal)
    (dc : DefaultGlobal) : String :=
  match cl.cluster_dir with
  | some s => s
  | none =>
    match fl.cluster_dir with
    | some s => s
    | none => dc.cluster_dir

/-- Filesystem state: which paths are directories, and each path's
permission bits (`Nat`, octal literals below match the source). -/
structure FileSystem where
  isdir : String → Bool
  perm : String → Nat

/-- `os.mkdir(p, mode)`: `p` becomes a directory with the given
permission bits; everything else is untouched. -/
def os_mkdir (fs : FileSystem) (p : String) (mode : Nat) : FileSystem :=
  { isdir := fun q => if q = p then true else fs.isdir q
    perm := fun q => if q = p then mode else fs.perm q }

/-- `os.chmod(p, mode)`: `p`'s permission bits become `mode`; existence
and everything else are untouched. -/
def os_chmod (fs : FileSystem) (p : String) (mode : Nat) : FileSystem :=
  { isdir := fs.isdir
    perm := fun q => if q = p then mode else fs.perm q }

/-- The security-directory block of `pre_construct`:
`if not os.path.isdir(security_dir): os.mkdir(security_dir, 0700)
else: os.chmod(security_dir, 0700)`. -/
def provision_security (fs : FileSystem) (security_dir : String) :
    FileSystem :=
  if fs.isdir security_dir then os_chmod fs security_dir 0o700
  else os_mkdir fs security_dir 0o700

/-- The log-directory block of `pre_construct`:
`if not os.path.isdir(log_dir): os.mkdir(log_dir, 0777)` — and nothing
when the log directory already exists. -/
def provision_log (fs : FileSystem) (log_dir : String) : FileSystem :=
  if fs.isdir log_dir then fs
  else os_mkdir fs log_dir 0o777

/-- The directory-provisioning part of `IPControllerApp.pre_construct`:
derive the security and log directories from the cluster directory and
the configured names, then run the two provisioning blocks in source
order.  Returns the new filesystem state and the two derived paths. -/
def pre_construct_dirs (fs : FileSystem)
    (cluster_dir security_dir_name log_dir_name : String) :
    FileSystem × String × String :=
  let security_dir := pathJoin cluster_dir security_dir_name
  let log_dir := pathJoin cluster_dir log_dir_name
  (provision_log (provision_security fs security_dir) log_dir,
   security_dir, log_dir)

/-- Python 2's builtin `hasattr` requires two arguments; the source calls
`hasattr(self.master_config.Global.reuse_furls)` with exactly one, which
raises `TypeError` before any attribute test happens. -/
def hasattr_one_arg {α : Type} (_x : α) : Except String Bool :=
  Except.error "TypeError: hasattr expected 2 arguments, got 1"

/-- A per-binding service-factory configuration section; `reuse_furls`
is `none` when no per-binding override was given. -/
structure ServiceFactoryConfig where
  reuse_furls : Option Bool

/-- The slice of `self.master_config` used by the `reuse_furls` step of
`pre_construct`: the global toggle (always present, the default layer
sets it) and the two binding sections. -/
structure MasterConfig where
  Global_reuse_furls : Bool
  FCClientServiceFactory : ServiceFactoryConfig
  FCEngineServiceFactory : ServiceFactoryConfig

/-- The `reuse_furls` propagation step of `pre_construct` (source lines
257-262): guarded by `if hasattr(self.master_config.Global.reuse_furls):`,
then assigns the global toggle to both bindings' `reuse_furls`. -/
def pre_construct_reuse_furls (mc : MasterConfig) :
    Except String MasterConfig :=
  match hasattr_one_arg mc.Global_reuse_furls with
  | Except.error e => Except.error e
  | Except.ok b =>
    if b then
      Except.ok
        { mc with
          FCClientServiceFactory := { reuse_furls := some mc.Global_reuse_furls }
          FCEngineServiceFactory := { reuse_furls := some mc.Global_reuse_furls } }
    else Except.ok mc

/-- Where `start_logging` directs diagnostic output: a freshly opened
(`open(..., 'w')`) file at the given path, or the process's standard
output stream. -/
inductive LogOutput : Type where
  | file : String → LogOutput
  | stdout : LogOutput
deriving DecidableEq

/-- `IPControllerApp.start_logging`: when `Global.log_to_file` is set,
open `<name>-<pid>.log` under the log directory for writing and log
there; otherwise log to `sys.stdout`. -/
def start_logging (log_to_file : Bool) (name : String) (pid : Nat)
    (log_dir : String) : LogOutput :=
  if log_to_file then
    let log_filename := name ++ "-" ++ toString pid ++ ".log"
    LogOutput.file (pathJoin log_dir log_filename)
  else LogOutput.stdout

/-- `IPControllerApp.import_statements`: run each configured statement
(text paired with its effect on the shared execution context, which can
raise) in order; a raising statement is caught by the bare `except`,
logged, and the loop continues.  Returns the final context, the number
of statements attempted, and the logged error messages. -/
def import_statements {Ctx : Type}
    (stmts : List (String × (Ctx → Except String Ctx))) (ctx : Ctx) :
    Ctx × Nat × List String :=
  match stmts with
  | [] => (ctx, 0, [])
  | s :: rest =>
    match s.2 ctx with
    | Except.ok c =>
      let r := import_statements rest c
      (r.1, r.2.1 + 1, r.2.2)
    | Except.error _ =>
      let r := import_statements rest ctx
      (r.1, r.2.1 + 1, ("Error running import statement: " ++ s.1) :: r.2.2)

/-! ## Concrete environments and states used by witnesses -/

/-- A concrete environment: identity expansion, no directory exists. -/
def env_a : Env :=
  { expand := id, cwd := "/cwd", isdir := fun _ => false, ipythondir := "/ipy" }

/-- A second concrete environment differing from `env_a` in working
directory, directory probing and application-data root. -/
def env_b : Env :=
  { expand := id, cwd := "/elsewhere", isdir := fun _ => true,
    ipythondir := "/other" }

/-- A concrete filesystem in which only `/c/log` exists, with mode 0755. -/
def fs_log_only : FileSystem :=
  { isdir := fun q => q == "/c/log"
    perm := fun q => if q = "/c/log" then 0o755 else 0 }

/-! ## Helper lemmas about the provisioning phases -/

/-- After the security block, the security directory's bits are 0700. -/
lemma provision_security_perm (fs : FileSystem) (sd : String) :
    (provision_security fs sd).perm sd = 0o700 := by
  unfold provision_security os_chmod os_mkdir
  split <;> simp

/-- After the security block, the security directory exists. -/
lemma provision_security_isdir (fs : FileSystem) (sd : String) :
    (provision_security fs sd).isdir sd = true := by
  unfold provision_security os_chmod os_mkdir
  split <;> simp [*]

/-- The security block touches nothing but the security directory. -/
lemma provision_security_frame (fs : FileSystem) (sd q : String)
    (h : q ≠ sd) :
    (provision_security fs sd).perm q = fs.perm q ∧
    (provision_security fs sd).isdir q = fs.isdir q := by
  unfold provision_security os_chmod os_mkdir
  split <;> simp [h]

/-- The log block is a no-op when the log directory already exists. -/
lemma provision_log_existing (fs : FileSystem) (ld : String)
    (h : fs.isdir ld = true) :
    provision_log fs ld = fs := by
  unfold provision_log
  rw [if_pos h]

/-- When the log directory is absent, the log block creates it 0777. -/
lemma provision_log_absent (fs : FileSystem) (ld : String)
    (h : fs.isdir ld = false) :
    (provision_log fs ld).perm ld = 0o777 := by
  unfold provision_log os_mkdir
  rw [if_neg (by simp [h])]
  simp

/-- The log block touches nothing but the log directory. -/
lemma provision_log_frame (fs : FileSystem) (ld q : String) (h : q ≠ ld) :
    (provision_log fs ld).perm q = fs.perm q ∧
    (provision_log fs ld).isdir q = fs.isdir q := by
  unfold provision_log os_mkdir
  split <;> simp [h]

/-! ## Theorems -/

/-- C1: after the directory-provisioning step of `pre_construct`, the
security subdirectory's permission bits are exactly `0700` (owner
read/write/execute, nothing for group or other), for every starting
filesystem state: if absent it is created with mode `0700`, and if it
already exists — whatever its permissions — it is re-chmodded to
`0700`. -/
theorem security_dir_mode_after_pre_construct
    (fs : FileSystem) (cluster_dir security_dir_name log_dir_name : String) :
    ((pre_construct_dirs fs cluster_dir security_dir_name log_dir_name).1).perm
      (pathJoin cluster_dir security_dir_name) = 0o700 := by
  show (provision_log
      (provision_security fs (pathJoin cluster_dir security_dir_name))
      (pathJoin cluster_dir log_dir_name)).perm
    (pathJoin cluster_dir security_dir_name) = 0o700
  set fs1 := provision_security fs (pathJoin cluster_dir security_dir_name)
    with hfs1
  by_cases h : fs1.isdir (pathJoin cluster_dir log_dir_name) = true
  · rw [provision_log_existing fs1 _ h, hfs1, provision_security_perm]
  · have hne : pathJoin cluster_dir security_dir_name
        ≠ pathJoin cluster_dir log_dir_name := by
      intro he
      exact h (by rw [← he, hfs1, provision_security_isdir])
    rw [(provision_log_frame fs1 _ _ hne).1, hfs1, provision_security_perm]

/-- C8: the provisioning step modifies the permissions only of the
security subdirectory.  When the log subdirectory (a path distinct from
the security one) already exists, its permission bits are left exactly
as they were — no `chmod` is applied to it; it is created with mode
`0777` only when absent.  Every path other than the two subdirectories
is untouched entirely. -/
theorem log_dir_perm_preserved
    (fs : FileSystem) (cluster_dir security_dir_name log_dir_name : String)
    (hne : pathJoin cluster_dir security_dir_name
      ≠ pathJoin cluster_dir log_dir_name) :
    (fs.isdir (pathJoin cluster_dir log_dir_name) = true →
      ((pre_construct_dirs fs cluster_dir security_dir_name
          log_dir_name).1).perm (pathJoin cluster_dir log_dir_name)
        = fs.perm (pathJoin cluster_dir log_dir_name)) ∧
    (fs.isdir (pathJoin cluster_dir log_dir_name) = false →
      ((pre_construct_dirs fs cluster_dir security_dir_name
          log_dir_name).1).perm (pathJoin cluster_dir log_dir_name)
        = 0o777) ∧
    ∀ q, q ≠ pathJoin cluster_dir security_dir_name →
      q ≠ pathJoin cluster_dir log_dir_name →
      ((pre_construct_dirs fs cluster_dir security_dir_name
          log_dir_name).1).perm q = fs.perm q ∧
      ((pre_construct_dirs fs cluster_dir security_dir_name
          log_dir_name).1).isdir q = fs.isdir q := by
  have hld : pathJoin cluster_dir log_dir_name
      ≠ pathJoin cluster_dir security_dir_name := Ne.symm hne
  set sec := pathJoin cluster_dir security_dir_name with hs
  set ld := pathJoin cluster_dir log_dir_name with hl
  set fs1 := provision_security fs sec with hfs1
  have hframe1 := provision_security_frame fs sec ld hld
  refine ⟨?_, ?_, ?_⟩
  · intro h
    show (provision_log fs1 ld).perm ld = fs.perm ld
    rw [provision_log_existing fs1 ld (by rw [hfs1, hframe1.2]; exact h)]
    exact hframe1.1
  · intro h
    show (provision_log fs1 ld).perm ld = 0o777
    exact provision_log_absent fs1 ld (by rw [hfs1, hframe1.2]; exact h)
  · intro q hq1 hq2
    have f1 := provision_security_frame fs sec q hq1
    have f2 := provision_log_frame fs1 ld q hq2
    exact ⟨f2.1.trans f1.1, f2.2.trans f1.2⟩

/-- Witness for C8 at a concrete state: `/c/log` pre-exists with mode
0755 and keeps it; the unrelated path `/c/other` is untouched. -/
theorem log_dir_perm_preserved_witness :
    ((pre_construct_dirs fs_log_only "/c" "security" "log").1).perm
        (pathJoin "/c" "log") = 0o755 ∧
    ((pre_construct_dirs fs_log_only "/c" "security" "log").1).perm
        "/c/other" = 0 := by
  have h := log_dir_perm_preserved fs_log_only "/c" "security" "log"
    (by decide)
  exact ⟨(h.1 (by decide)).trans (by decide),
    ((h.2.2 "/c/other" (by decide) (by decide)).1).trans (by decide)⟩

/-- C2: when the cluster-directory setting (command-line layer if set,
else default layer) expands to a non-empty string, resolution returns
exactly that expanded value, and the profile-based fallback is never
consulted: the result is invariant under any change of profile values,
working directory, directory probing and application-data root. -/
theorem explicit_cluster_dir_skips_profile
    (env : Env) (cl : CmdLineGlobal) (dc : DefaultGlobal)
    (h : env.expand (read_cluster_dir cl dc) ≠ "") :
    (find_cluster_dir env cl dc).cluster_dir
      = env.expand (read_cluster_dir cl dc) ∧
    ∀ (env2 : Env) (cl2 : CmdLineGlobal) (dc2 : DefaultGlobal),
      env2.expand = env.expand → cl2.cluster_dir = cl.cluster_dir →
      dc2.cluster_dir = dc.cluster_dir →
      (find_cluster_dir env2 cl2 dc2).cluster_dir
        = (find_cluster_dir env cl dc).cluster_dir := by
  refine ⟨by simp [find_cluster_dir, h], ?_⟩
  intro env2 cl2 dc2 he hc hd
  have hr : read_cluster_dir cl2 dc2 = read_cluster_dir cl dc := by
    unfold read_cluster_dir
    rw [hc, hd]
  simp [find_cluster_dir, hr, he, h]

/-- Witness for C2: an explicit `--cluster-dir /explicit` resolves to
`/explicit` under `env_a`, and changing the environment to `env_b` and
the profiles arbitrarily leaves the result unchanged. -/
theorem explicit_cluster_dir_skips_profile_witness :
    (find_cluster_dir env_a
        { cluster_dir := some "/explicit", profile := none }
        { cluster_dir := "", profile := "default" }).cluster_dir
      = "/explicit" ∧
    (find_cluster_dir env_b
        { cluster_dir := some "/explicit", profile := some "work" }
        { cluster_dir := "", profile := "p" }).cluster_dir
      = (find_cluster_dir env_a
        { cluster_dir := some "/explicit", profile := none }
        { cluster_dir := "", profile := "default" }).cluster_dir := by
  have h := explicit_cluster_dir_skips_profile env_a
    { cluster_dir := some "/explicit", profile := none }
    { cluster_dir := "", profile := "default" } (by decide)
  exact ⟨h.1, h.2 env_b
    { cluster_dir := some "/explicit", profile := some "work" }
    { cluster_dir := "", profile := "p" } rfl rfl rfl⟩

/-- C3: when the setting expands to the empty string, resolution forms
`cluster_<profile>` (profile from the command-line layer, else the
default layer) and picks the candidate under the current working
directory when that candidate is a directory, else the candidate under
the application-data root. -/
theorem empty_cluster_dir_profile_fallback
    (env : Env) (cl : CmdLineGlobal) (dc : DefaultGlobal)
    (h : env.expand (read_cluster_dir cl dc) = "") :
    (find_cluster_dir env cl dc).cluster_dir =
      if env.isdir (pathJoin env.cwd ("cluster_" ++ read_profile cl dc)) then
        pathJoin env.cwd ("cluster_" ++ read_profile cl dc)
      else pathJoin env.ipythondir ("cluster_" ++ read_profile cl dc) := by
  simp [find_cluster_dir, h]

/-- Witness for C3: with an empty setting, profile `"default"` and no
`./cluster_default` directory, resolution picks
`<ipythondir>/cluster_default`. -/
theorem empty_cluster_dir_profile_fallback_witness :
    (find_cluster_dir env_a { cluster_dir := none, profile := none }
        { cluster_dir := "", profile := "default" }).cluster_dir
      = (if env_a.isdir
            (pathJoin env_a.cwd
              ("cluster_" ++ read_profile
                { cluster_dir := none, profile := none }
                { cluster_dir := "", profile := "default" })) then
          pathJoin env_a.cwd
            ("cluster_" ++ read_profile
              { cluster_dir := none, profile := none }
              { cluster_dir := "", profile := "default" })
        else
          pathJoin env_a.ipythondir
            ("cluster_" ++ read_profile
              { cluster_dir := none, profile := none }
              { cluster_dir := "", profile := "default" })) ∧
    (find_cluster_dir env_a { cluster_dir := none, profile := none }
        { cluster_dir := "", profile := "default" }).cluster_dir
      = "/ipy/cluster_default" := by
  refine ⟨empty_cluster_dir_profile_fallback env_a
    { cluster_dir := none, profile := none }
    { cluster_dir := "", profile := "default" } rfl, by decide⟩

/-- C4: after resolution, the resolved value has been written back into
both configuration layers: the default layer holds it, the command-line
layer holds it, and the layered read (`command-line if set, else
default`) returns exactly the resolved value. -/
theorem cluster_dir_echoed_to_both_layers
    (env : Env) (cl : CmdLineGlobal) (dc : DefaultGlobal) :
    (find_cluster_dir env cl dc).default_config.cluster_dir
      = (find_cluster_dir env cl dc).cluster_dir ∧
    (find_cluster_dir env cl dc).command_line_config.cluster_dir
      = some (find_cluster_dir env cl dc).cluster_dir ∧
    read_cluster_dir (find_cluster_dir env cl dc).command_line_config
        (find_cluster_dir env cl dc).default_config
      = (find_cluster_dir env cl dc).cluster_dir :=
  ⟨rfl, rfl, rfl⟩

/-- C5: the `reuse_furls` step of `pre_construct` never completes.  Its
guard calls Python's two-argument builtin `hasattr` with a single
argument, so the step raises `TypeError` before any assignment to the
bindings' `reuse_furls` can happen — here shown on a configuration with
the global toggle set and no per-binding override. -/
theorem pre_construct_reuse_furls_raises_type_error :
    pre_construct_reuse_furls
        { Global_reuse_furls := true
          FCClientServiceFactory := { reuse_furls := none }
          FCEngineServiceFactory := { reuse_furls := none } }
      = Except.error "TypeError: hasattr expected 2 arguments, got 1" :=
  rfl

/-- C6: with log-to-file enabled, diagnostic output goes to a newly
opened file `<app-name>-<process-id>.log` under the log directory; with
it disabled, it goes to the process's standard output stream. -/
theorem start_logging_output (name : String) (pid : Nat)
    (log_dir : String) :
    start_logging true name pid log_dir
      = LogOutput.file
          (pathJoin log_dir (name ++ "-" ++ toString pid ++ ".log")) ∧
    start_logging false name pid log_dir = LogOutput.stdout :=
  ⟨rfl, rfl⟩

/-- C7: the setup-statement step attempts every configured statement —
the attempted count always equals the list length, whatever each
statement does — and a statement that raises is caught, logged with the
statement's text, and leaves the context unchanged for the remaining
statements; the step itself always returns normally. -/
theorem import_statements_attempt_all {Ctx : Type}
    (stmts : List (String × (Ctx → Except String Ctx))) (ctx : Ctx) :
    (import_statements stmts ctx).2.1 = stmts.length ∧
    ∀ (t e : String),
      import_statements ((t, fun _ => Except.error e) :: stmts) ctx
        = ((import_statements stmts ctx).1,
           (import_statements stmts ctx).2.1 + 1,
           ("Error running import statement: " ++ t)
             :: (import_statements stmts ctx).2.2) := by
  refine ⟨?_, fun t e => rfl⟩
  induction stmts generalizing ctx with
  | nil => rfl
  | cons s rest ih =>
    unfold import_statements
    cases h : s.2 ctx <;> simp [ih]

/-- C9: directory resolution does not produce an absolute path when the
operator supplies an explicit relative cluster-directory setting: with
`--cluster-dir subdir` the resolved value (echoed into the layers) is
the relative string `subdir` itself, contradicting the resolver's
stated contract of returning a full path. -/
theorem relative_cluster_dir_not_absolute :
    (find_cluster_dir env_a
        { cluster_dir := some "subdir", profile := none }
        { cluster_dir := "", profile := "default" }).cluster_dir
      = "subdir" ∧
    isabs (find_cluster_dir env_a
        { cluster_dir := some "subdir", profile := none }
        { cluster_dir := "", profile := "default" }).cluster_dir
      = false := by
  exact ⟨rfl, rfl⟩

/-- Counterexample to C10: with the command-line layer not setting the
cluster directory, the file-based layer setting `/filedir`, and the
default layer empty, the source's resolution ignores the file-based
layer entirely and falls back to profile-based resolution, while the
spec's three-layer precedence would return `/filedir`. -/
theorem file_layer_ignored_counterexample :
    (find_cluster_dir env_a { cluster_dir := none, profile := none }
        { cluster_dir := "", profile := "default" }).cluster_dir
      = "/ipy/cluster_default" ∧
    read_cluster_dir_spec { cluster_dir := none, profile := none }
        { cluster_dir := some "/filedir" }
        { cluster_dir := "", profile := "default" }
      = "/filedir" ∧
    ("/ipy/cluster_default" : String) ≠ "/filedir" := by
  exact ⟨rfl, rfl, by decide⟩

/-- C10 amended: directory resolution reads `Global.cluster_dir` from
the command-line layer and, when the command-line layer does not set it,
from the default layer; the file-based layer is not consulted (the
resolution runs before the configuration file is located, since the
cluster directory determines where that file lives). -/
theorem cluster_dir_resolution_ignores_file_layer
    (env : Env) (cl : CmdLineGlobal) (dc : DefaultGlobal)
    (h : cl.cluster_dir = none) :
    (find_cluster_dir env cl dc).cluster_dir =
      if env.expand dc.cluster_dir = "" then
        (if env.isdir
              (pathJoin env.cwd ("cluster_" ++ read_profile cl dc)) then
          pathJoin env.cwd ("cluster_" ++ read_profile cl dc)
        else pathJoin env.ipythondir ("cluster_" ++ read_profile cl dc))
      else env.expand dc.cluster_dir := by
  have hr : read_cluster_dir cl dc = dc.cluster_dir := by
    unfold read_cluster_dir
    rw [h]
  simp only [find_cluster_dir, hr]

/-- Witness for the amended C10: the command-line layer does not set the
cluster directory and the default layer holds `/fromdefault`, which is
what resolution returns. -/
theorem cluster_dir_resolution_ignores_file_layer_witness :
    (find_cluster_dir env_a { cluster_dir := none, profile := none }
        { cluster_dir := "/fromdefault", profile := "default" }).cluster_dir
      = (if env_a.expand "/fromdefault" = "" then
          (if env_a.isdir
                (pathJoin env_a.cwd
                  ("cluster_" ++ read_profile
                    { cluster_dir := none, profile := none }
                    { cluster_dir := "/fromdefault",
                      profile := "default" })) then
            pathJoin env_a.cwd
              ("cluster_" ++ read_profile
                { cluster_dir := none, profile := none }
                { cluster_dir := "/fromdefault", profile := "default" })
          else
            pathJoin env_a.ipythondir
              ("cluster_" ++ read_profile
                { cluster_dir := none, profile := none }
                { cluster_dir := "/fromdefault", profile := "default" }))
        else env_a.expand "/fromdefault") ∧
    (find_cluster_dir env_a { cluster_dir := none, profile := none }
        { cluster_dir := "/fromdefault", profile := "default" }).cluster_dir
      = "/fromdefault" := by
  refine ⟨cluster_dir_resolution_ignores_file_layer env_a
    { cluster_dir := none, profile := none }
    { cluster_dir := "/fromdefault", profile := "default" } rfl, rfl⟩

end IPControllerApp
